import Mathlib

/-!
Shallow embedding of the ASRS questionnaire scoring application
(src/app.py) and proofs about its scoring, banding and submission logic.

A response set is modelled as a partial map from item index to an integer
response value: `r i` models the Python dictionary lookup
`responses.get(s, default)` for the key built from item index `i`
(the key Qi in the source), where `none` means the key is absent.
The configuration is modelled by the single field the score calculator
reads: `seuils_partie_a`, an optional list of Part A thresholds
(`config.get` with a default list in the source).
-/

namespace Asrs

/-- The dictionary returned by `calculer_score_asrs` (src/app.py lines
118-126), as a record. -/
structure ScoreReport where
  score_total : ℤ
  score_max : ℤ
  score_partie_a : ℤ
  score_partie_b : ℤ
  items_positifs_a : ℕ
  items_positifs_b : ℕ
  screening_positif : Bool
deriving DecidableEq, Repr

/-- The value the source reads for item `i`: `responses.get(key, 0)`
where the key is Qi, i.e. the stored value when the key is present and 0
otherwise (src/app.py lines 96 and 106). -/
def v (r : ℕ → Option ℤ) (i : ℕ) : ℤ := (r i).getD 0

/-- The Part A threshold list the source uses:
`config.get(key, [2, 3, 2, 2, 3, 3])` (src/app.py line 89). -/
def seuilsOf (cfg : Option (List ℤ)) : List ℤ := cfg.getD [2, 3, 2, 2, 3, 3]

/-- Embedding of `calculer_score_asrs` (src/app.py lines 76-126).

The two `for` loops are folds over `range(6)` and `range(6, 18)`; the
loop body reads `responses.get(key, 0)` for key Qi+1, accumulates the
score and counts items at or above the threshold (`score_i >= seuils_a[i]`
for Part A, `score_i >= 3` for Part B).  The Python expression
`seuils_a[i]` raises `IndexError` when the configured list has fewer than
6 entries, so the embedding returns `none` exactly in that case; inside
the guarded branch `List.getD` coincides with Python indexing. -/
def calculer_score_asrs (responses : ℕ → Option ℤ) (cfg : Option (List ℤ)) :
    Option ScoreReport :=
  let seuils_a := seuilsOf cfg
  if 6 ≤ seuils_a.length then
    let pa := (List.range 6).foldl
      (fun acc i =>
        let score_i := v responses (i + 1)
        (acc.1 + score_i, acc.2 + if seuils_a.getD i 0 ≤ score_i then 1 else 0))
      ((0 : ℤ), (0 : ℕ))
    let pb := (List.range' 6 12).foldl
      (fun acc i =>
        let score_i := v responses (i + 1)
        (acc.1 + score_i, acc.2 + if 3 ≤ score_i then 1 else 0))
      ((0 : ℤ), (0 : ℕ))
    some {
      score_total := pa.1 + pb.1
      score_max := 72
      score_partie_a := pa.1
      score_partie_b := pb.1
      items_positifs_a := pa.2
      items_positifs_b := pb.2
      screening_positif := decide (4 ≤ pa.2) }
  else none

/-- Explicit form of the Part A positive count: one term per loop
iteration of src/app.py lines 95-99. -/
def cA (r : ℕ → Option ℤ) (s : List ℤ) : ℕ :=
  (if s.getD 0 0 ≤ v r 1 then 1 else 0) + (if s.getD 1 0 ≤ v r 2 then 1 else 0) +
  (if s.getD 2 0 ≤ v r 3 then 1 else 0) + (if s.getD 3 0 ≤ v r 4 then 1 else 0) +
  (if s.getD 4 0 ≤ v r 5 then 1 else 0) + (if s.getD 5 0 ≤ v r 6 then 1 else 0)

/-- Explicit form of the Part B positive count: one term per loop
iteration of src/app.py lines 105-109. -/
def cB (r : ℕ → Option ℤ) : ℕ :=
  (if 3 ≤ v r 7 then 1 else 0) + (if 3 ≤ v r 8 then 1 else 0) +
  (if 3 ≤ v r 9 then 1 else 0) + (if 3 ≤ v r 10 then 1 else 0) +
  (if 3 ≤ v r 11 then 1 else 0) + (if 3 ≤ v r 12 then 1 else 0) +
  (if 3 ≤ v r 13 then 1 else 0) + (if 3 ≤ v r 14 then 1 else 0) +
  (if 3 ≤ v r 15 then 1 else 0) + (if 3 ≤ v r 16 then 1 else 0) +
  (if 3 ≤ v r 17 then 1 else 0) + (if 3 ≤ v r 18 then 1 else 0)

/-- Explicit form of the Part A score sum (src/app.py line 97). -/
def sA (r : ℕ → Option ℤ) : ℤ :=
  v r 1 + v r 2 + v r 3 + v r 4 + v r 5 + v r 6

/-- Explicit form of the Part B score sum (src/app.py line 107). -/
def sB (r : ℕ → Option ℤ) : ℤ :=
  v r 7 + v r 8 + v r 9 + v r 10 + v r 11 + v r 12 +
  v r 13 + v r 14 + v r 15 + v r 16 + v r 17 + v r 18

/-- Closed form of the score calculator: when the threshold list has at
least 6 entries it returns the report whose fields are the explicit sums
and counts above. -/
lemma calculer_eq (r : ℕ → Option ℤ) (cfg : Option (List ℤ))
    (h : 6 ≤ (seuilsOf cfg).length) :
    calculer_score_asrs r cfg = some {
      score_total := sA r + sB r
      score_max := 72
      score_partie_a := sA r
      score_partie_b := sB r
      items_positifs_a := cA r (seuilsOf cfg)
      items_positifs_b := cB r
      screening_positif := decide (4 ≤ cA r (seuilsOf cfg)) } := by
  have h6 : List.range 6 = [0, 1, 2, 3, 4, 5] := rfl
  have h12 : List.range' 6 12 = [6, 7, 8, 9, 10, 11, 12, 13, 14, 15, 16, 17] := rfl
  simp only [calculer_score_asrs, h, if_true, h6, h12, List.foldl,
    sA, sB, cA, cB]
  norm_num

/-- Round-half-to-even of a rational to an integer; this is the rounding
used by the Python built-in `round`. -/
def roundHalfEven (q : ℚ) : ℤ :=
  let f := q.floor
  let frac := q - f
  if frac < 1 / 2 then f
  else if 1 / 2 < frac then f + 1
  else if f % 2 = 0 then f else f + 1

/-- Round a rational to one decimal place, modelling the Python call
`round(x, 1)` (the source computes `x` by floating-point division; at the
inputs checked by the claims the quotient is exact, so the rational model
agrees with the float computation). -/
def pyRound1 (q : ℚ) : ℚ := (roundHalfEven (10 * q) : ℚ) / 10

/-- The percentage field computed by `show_questionnaire`:
`round((score_total / score_max) * 100, 1)` (src/app.py line 261). -/
def score_pourcentage_of (rep : ScoreReport) : ℚ :=
  pyRound1 ((rep.score_total : ℚ) / (rep.score_max : ℚ) * 100)

/-- The four severity bands displayed by the interpretation table of
`show_questionnaire` (src/app.py lines 324-327). -/
inductive Bande where
  | occasionnelles
  | moderees
  | importantes
  | marquees
deriving DecidableEq, Repr

/-- The severity banding given by the score ranges displayed at
src/app.py lines 324-327: 0-18 occasional, 19-36 moderate, 37-54
significant, 55-72 very marked; totals outside every displayed range
belong to no band. -/
def bande (total : ℤ) : Option Bande :=
  if 0 ≤ total ∧ total ≤ 18 then some Bande.occasionnelles
  else if 19 ≤ total ∧ total ≤ 36 then some Bande.moderees
  else if 37 ≤ total ∧ total ≤ 54 then some Bande.importantes
  else if 55 ≤ total ∧ total ≤ 72 then some Bande.marquees
  else none

/-- The `save_data` dictionary assembled by `show_questionnaire` on
submission (src/app.py lines 248-262), restricted to its scalar fields;
the raw per-item responses appended by `save_data.update(responses)` are
carried separately by the response map itself. -/
structure SaveData where
  timestamp : String
  type_questionnaire : String
  email : String
  age : ℤ
  genre : String
  score_total : ℤ
  score_max : ℤ
  score_partie_a : ℤ
  score_partie_b : ℤ
  items_positifs_a : ℕ
  items_positifs_b : ℕ
  screening_positif : Bool
  score_pourcentage : ℚ
deriving DecidableEq, Repr

/-- Embedding of the submission branch of `show_questionnaire`
(src/app.py lines 243-284): compute the scores, build `save_data`, then
attempt persistence and report its outcome.  The external store is
abstracted by `store : Option Bool`: `none` models `connect_to_gsheet`
returning no spreadsheet, `some b` models `save_to_gsheet` returning `b`.
In the source the persistence attempt happens after `save_data` is built
and the results are displayed afterwards in every case, so the function
returns the record for display together with the persistence outcome. -/
def show_questionnaire_submit (ts qt em ge : String) (age : ℤ)
    (r : ℕ → Option ℤ) (cfg : Option (List ℤ)) (store : Option Bool) :
    Option (SaveData × Option Bool) :=
  match calculer_score_asrs r cfg with
  | none => none
  | some scores =>
    some ({ timestamp := ts
            type_questionnaire := qt
            email := em
            age := age
            genre := ge
            score_total := scores.score_total
            score_max := scores.score_max
            score_partie_a := scores.score_partie_a
            score_partie_b := scores.score_partie_b
            items_positifs_a := scores.items_positifs_a
            items_positifs_b := scores.items_positifs_b
            screening_positif := scores.screening_positif
            score_pourcentage := score_pourcentage_of scores }, store)

/-- The per-item threshold of the scoring rule: the configured Part A
threshold for items 1-6 (src/app.py line 98), the fixed value 3 for items
7-18 (src/app.py line 108). -/
def seuil_item (cfg : Option (List ℤ)) (i : ℕ) : ℤ :=
  if i ≤ 6 then (seuilsOf cfg).getD (i - 1) 0 else 3

/-- Response set with every item 1-18 answered at the scale maximum 4. -/
def rAll4 : ℕ → Option ℤ := fun i => if 1 ≤ i ∧ i ≤ 18 then some 4 else none

/-- Response set with every item 1-18 answered 0. -/
def rAll0 : ℕ → Option ℤ := fun i => if 1 ≤ i ∧ i ≤ 18 then some 0 else none

/-- Response set with item 7 absent and every other item 1-18 answered 4. -/
def rMissing7 : ℕ → Option ℤ :=
  fun i => if i = 7 then none else if 1 ≤ i ∧ i ≤ 18 then some 4 else none

lemma cA_congr (r r' : ℕ → Option ℤ) (s : List ℤ)
    (h : ∀ j, 1 ≤ j → j ≤ 6 → v r j = v r' j) : cA r s = cA r' s := by
  simp only [cA,
    h 1 (by norm_num) (by norm_num), h 2 (by norm_num) (by norm_num),
    h 3 (by norm_num) (by norm_num), h 4 (by norm_num) (by norm_num),
    h 5 (by norm_num) (by norm_num), h 6 (by norm_num) (by norm_num)]

lemma cB_congr (r r' : ℕ → Option ℤ)
    (h : ∀ j, 7 ≤ j → j ≤ 18 → v r j = v r' j) : cB r = cB r' := by
  simp only [cB,
    h 7 (by norm_num) (by norm_num), h 8 (by norm_num) (by norm_num),
    h 9 (by norm_num) (by norm_num), h 10 (by norm_num) (by norm_num),
    h 11 (by norm_num) (by norm_num), h 12 (by norm_num) (by norm_num),
    h 13 (by norm_num) (by norm_num), h 14 (by norm_num) (by norm_num),
    h 15 (by norm_num) (by norm_num), h 16 (by norm_num) (by norm_num),
    h 17 (by norm_num) (by norm_num), h 18 (by norm_num) (by norm_num)]

lemma sA_congr (r r' : ℕ → Option ℤ)
    (h : ∀ j, 1 ≤ j → j ≤ 6 → v r j = v r' j) : sA r = sA r' := by
  simp only [sA,
    h 1 (by norm_num) (by norm_num), h 2 (by norm_num) (by norm_num),
    h 3 (by norm_num) (by norm_num), h 4 (by norm_num) (by norm_num),
    h 5 (by norm_num) (by norm_num), h 6 (by norm_num) (by norm_num)]

lemma sB_congr (r r' : ℕ → Option ℤ)
    (h : ∀ j, 7 ≤ j → j ≤ 18 → v r j = v r' j) : sB r = sB r' := by
  simp only [sB,
    h 7 (by norm_num) (by norm_num), h 8 (by norm_num) (by norm_num),
    h 9 (by norm_num) (by norm_num), h 10 (by norm_num) (by norm_num),
    h 11 (by norm_num) (by norm_num), h 12 (by norm_num) (by norm_num),
    h 13 (by norm_num) (by norm_num), h 14 (by norm_num) (by norm_num),
    h 15 (by norm_num) (by norm_num), h 16 (by norm_num) (by norm_num),
    h 17 (by norm_num) (by norm_num), h 18 (by norm_num) (by norm_num)]

lemma cA_succ_of_at_threshold (r r' : ℕ → Option ℤ) (s : List ℤ) (i : ℕ)
    (h1 : 1 ≤ i) (h6 : i ≤ 6)
    (hagree : ∀ j, 1 ≤ j → j ≤ 6 → j ≠ i → v r j = v r' j)
    (hpos : s.getD (i - 1) 0 ≤ v r i) (hlt : v r' i < s.getD (i - 1) 0) :
    cA r s = cA r' s + 1 := by
  interval_cases i
  · have hp : s.getD 0 0 ≤ v r 1 := hpos
    have hl : v r' 1 < s.getD 0 0 := hlt
    simp only [cA,
      hagree 2 (by norm_num) (by norm_num) (by norm_num),
      hagree 3 (by norm_num) (by norm_num) (by norm_num),
      hagree 4 (by norm_num) (by norm_num) (by norm_num),
      hagree 5 (by norm_num) (by norm_num) (by norm_num),
      hagree 6 (by norm_num) (by norm_num) (by norm_num)]
    rw [if_pos hp, if_neg (not_le.mpr hl)]
    ring
  · have hp : s.getD 1 0 ≤ v r 2 := hpos
    have hl : v r' 2 < s.getD 1 0 := hlt
    simp only [cA,
      hagree 1 (by norm_num) (by norm_num) (by norm_num),
      hagree 3 (by norm_num) (by norm_num) (by norm_num),
      hagree 4 (by norm_num) (by norm_num) (by norm_num),
      hagree 5 (by norm_num) (by norm_num) (by norm_num),
      hagree 6 (by norm_num) (by norm_num) (by norm_num)]
    rw [if_pos hp, if_neg (not_le.mpr hl)]
    ring
  · have hp : s.getD 2 0 ≤ v r 3 := hpos
    have hl : v r' 3 < s.getD 2 0 := hlt
    simp only [cA,
      hagree 1 (by norm_num) (by norm_num) (by norm_num),
      hagree 2 (by norm_num) (by norm_num) (by norm_num),
      hagree 4 (by norm_num) (by norm_num) (by norm_num),
      hagree 5 (by norm_num) (by norm_num) (by norm_num),
      hagree 6 (by norm_num) (by norm_num) (by norm_num)]
    rw [if_pos hp, if_neg (not_le.mpr hl)]
    ring
  · have hp : s.getD 3 0 ≤ v r 4 := hpos
    have hl : v r' 4 < s.getD 3 0 := hlt
    simp only [cA,
      hagree 1 (by norm_num) (by norm_num) (by norm_num),
      hagree 2 (by norm_num) (by norm_num) (by norm_num),
      hagree 3 (by norm_num) (by norm_num) (by norm_num),
      hagree 5 (by norm_num) (by norm_num) (by norm_num),
      hagree 6 (by norm_num) (by norm_num) (by norm_num)]
    rw [if_pos hp, if_neg (not_le.mpr hl)]
    ring
  · have hp : s.getD 4 0 ≤ v r 5 := hpos
    have hl : v r' 5 < s.getD 4 0 := hlt
    simp only [cA,
      hagree 1 (by norm_num) (by norm_num) (by norm_num),
      hagree 2 (by norm_num) (by norm_num) (by norm_num),
      hagree 3 (by norm_num) (by norm_num) (by norm_num),
      hagree 4 (by norm_num) (by norm_num) (by norm_num),
      hagree 6 (by norm_num) (by norm_num) (by norm_num)]
    rw [if_pos hp, if_neg (not_le.mpr hl)]
    ring
  · have hp : s.getD 5 0 ≤ v r 6 := hpos
    have hl : v r' 6 < s.getD 5 0 := hlt
    simp only [cA,
      hagree 1 (by norm_num) (by norm_num) (by norm_num),
      hagree 2 (by norm_num) (by norm_num) (by norm_num),
      hagree 3 (by norm_num) (by norm_num) (by norm_num),
      hagree 4 (by norm_num) (by norm_num) (by norm_num),
      hagree 5 (by norm_num) (by norm_num) (by norm_num)]
    rw [if_pos hp, if_neg (not_le.mpr hl)]

lemma cB_succ_of_at_threshold (r r' : ℕ → Option ℤ) (i : ℕ)
    (h7 : 7 ≤ i) (h18 : i ≤ 18)
    (hagree : ∀ j, 7 ≤ j → j ≤ 18 → j ≠ i → v r j = v r' j)
    (hpos : 3 ≤ v r i) (hlt : v r' i < 3) :
    cB r = cB r' + 1 := by
  interval_cases i
  · simp only [cB,
      hagree 8 (by norm_num) (by norm_num) (by norm_num),
      hagree 9 (by norm_num) (by norm_num) (by norm_num),
      hagree 10 (by norm_num) (by norm_num) (by norm_num),
      hagree 11 (by norm_num) (by norm_num) (by norm_num),
      hagree 12 (by norm_num) (by norm_num) (by norm_num),
      hagree 13 (by norm_num) (by norm_num) (by norm_num),
      hagree 14 (by norm_num) (by norm_num) (by norm_num),
      hagree 15 (by norm_num) (by norm_num) (by norm_num),
      hagree 16 (by norm_num) (by norm_num) (by norm_num),
      hagree 17 (by norm_num) (by norm_num) (by norm_num),
      hagree 18 (by norm_num) (by norm_num) (by norm_num)]
    rw [if_pos hpos, if_neg (not_le.mpr hlt)]
    ring
  · simp only [cB,
      hagree 7 (by norm_num) (by norm_num) (by norm_num),
      hagree 9 (by norm_num) (by norm_num) (by norm_num),
      hagree 10 (by norm_num) (by norm_num) (by norm_num),
      hagree 11 (by norm_num) (by norm_num) (by norm_num),
      hagree 12 (by norm_num) (by norm_num) (by norm_num),
      hagree 13 (by norm_num) (by norm_num) (by norm_num),
      hagree 14 (by norm_num) (by norm_num) (by norm_num),
      hagree 15 (by norm_num) (by norm_num) (by norm_num),
      hagree 16 (by norm_num) (by norm_num) (by norm_num),
      hagree 17 (by norm_num) (by norm_num) (by norm_num),
      hagree 18 (by norm_num) (by norm_num) (by norm_num)]
    rw [if_pos hpos, if_neg (not_le.mpr hlt)]
    ring
  · simp only [cB,
      hagree 7 (by norm_num) (by norm_num) (by norm_num),
      hagree 8 (by norm_num) (by norm_num) (by norm_num),
      hagree 10 (by norm_num) (by norm_num) (by norm_num),
      hagree 11 (by norm_num) (by norm_num) (by norm_num),
      hagree 12 (by norm_num) (by norm_num) (by norm_num),
      hagree 13 (by norm_num) (by norm_num) (by norm_num),
      hagree 14 (by norm_num) (by norm_num) (by norm_num),
      hagree 15 (by norm_num) (by norm_num) (by norm_num),
      hagree 16 (by norm_num) (by norm_num) (by norm_num),
      hagree 17 (by norm_num) (by norm_num) (by norm_num),
      hagree 18 (by norm_num) (by norm_num) (by norm_num)]
    rw [if_pos hpos, if_neg (not_le.mpr hlt)]
    ring
  · simp only [cB,
      hagree 7 (by norm_num) (by norm_num) (by norm_num),
      hagree 8 (by norm_num) (by norm_num) (by norm_num),
      hagree 9 (by norm_num) (by norm_num) (by norm_num),
      hagree 11 (by norm_num) (by norm_num) (by norm_num),
      hagree 12 (by norm_num) (by norm_num) (by norm_num),
      hagree 13 (by norm_num) (by norm_num) (by norm_num),
      hagree 14 (by norm_num) (by norm_num) (by norm_num),
      hagree 15 (by norm_num) (by norm_num) (by norm_num),
      hagree 16 (by norm_num) (by norm_num) (by norm_num),
      hagree 17 (by norm_num) (by norm_num) (by norm_num),
      hagree 18 (by norm_num) (by norm_num) (by norm_num)]
    rw [if_pos hpos, if_neg (not_le.mpr hlt)]
    ring
  · simp only [cB,
      hagree 7 (by norm_num) (by norm_num) (by norm_num),
      hagree 8 (by norm_num) (by norm_num) (by norm_num),
      hagree 9 (by norm_num) (by norm_num) (by norm_num),
      hagree 10 (by norm_num) (by norm_num) (by norm_num),
      hagree 12 (by norm_num) (by norm_num) (by norm_num),
      hagree 13 (by norm_num) (by norm_num) (by norm_num),
      hagree 14 (by norm_num) (by norm_num) (by norm_num),
      hagree 15 (by norm_num) (by norm_num) (by norm_num),
      hagree 16 (by norm_num) (by norm_num) (by norm_num),
      hagree 17 (by norm_num) (by norm_num) (by norm_num),
      hagree 18 (by norm_num) (by norm_num) (by norm_num)]
    rw [if_pos hpos, if_neg (not_le.mpr hlt)]
    ring
  · simp only [cB,
      hagree 7 (by norm_num) (by norm_num) (by norm_num),
      hagree 8 (by norm_num) (by norm_num) (by norm_num),
      hagree 9 (by norm_num) (by norm_num) (by norm_num),
      hagree 10 (by norm_num) (by norm_num) (by norm_num),
      hagree 11 (by norm_num) (by norm_num) (by norm_num),
      hagree 13 (by norm_num) (by norm_num) (by norm_num),
      hagree 14 (by norm_num) (by norm_num) (by norm_num),
      hagree 15 (by norm_num) (by norm_num) (by norm_num),
      hagree 16 (by norm_num) (by norm_num) (by norm_num),
      hagree 17 (by norm_num) (by norm_num) (by norm_num),
      hagree 18 (by norm_num) (by norm_num) (by norm_num)]
    rw [if_pos hpos, if_neg (not_le.mpr hlt)]
    ring
  · simp only [cB,
      hagree 7 (by norm_num) (by norm_num) (by norm_num),
      hagree 8 (by norm_num) (by norm_num) (by norm_num),
      hagree 9 (by norm_num) (by norm_num) (by norm_num),
      hagree 10 (by norm_num) (by norm_num) (by norm_num),
      hagree 11 (by norm_num) (by norm_num) (by norm_num),
      hagree 12 (by norm_num) (by norm_num) (by norm_num),
      hagree 14 (by norm_num) (by norm_num) (by norm_num),
      hagree 15 (by norm_num) (by norm_num) (by norm_num),
      hagree 16 (by norm_num) (by norm_num) (by norm_num),
      hagree 17 (by norm_num) (by norm_num) (by norm_num),
      hagree 18 (by norm_num) (by norm_num) (by norm_num)]
    rw [if_pos hpos, if_neg (not_le.mpr hlt)]
    ring
  · simp only [cB,
      hagree 7 (by norm_num) (by norm_num) (by norm_num),
      hagree 8 (by norm_num) (by norm_num) (by norm_num),
      hagree 9 (by norm_num) (by norm_num) (by norm_num),
      hagree 10 (by norm_num) (by norm_num) (by norm_num),
      hagree 11 (by norm_num) (by norm_num) (by norm_num),
      hagree 12 (by norm_num) (by norm_num) (by norm_num),
      hagree 13 (by norm_num) (by norm_num) (by norm_num),
      hagree 15 (by norm_num) (by norm_num) (by norm_num),
      hagree 16 (by norm_num) (by norm_num) (by norm_num),
      hagree 17 (by norm_num) (by norm_num) (by norm_num),
      hagree 18 (by norm_num) (by norm_num) (by norm_num)]
    rw [if_pos hpos, if_neg (not_le.mpr hlt)]
    ring
  · simp only [cB,
      hagree 7 (by norm_num) (by norm_num) (by norm_num),
      hagree 8 (by norm_num) (by norm_num) (by norm_num),
      hagree 9 (by norm_num) (by norm_num) (by norm_num),
      hagree 10 (by norm_num) (by norm_num) (by norm_num),
      hagree 11 (by norm_num) (by norm_num) (by norm_num),
      hagree 12 (by norm_num) (by norm_num) (by norm_num),
      hagree 13 (by norm_num) (by norm_num) (by norm_num),
      hagree 14 (by norm_num) (by norm_num) (by norm_num),
      hagree 16 (by norm_num) (by norm_num) (by norm_num),
      hagree 17 (by norm_num) (by norm_num) (by norm_num),
      hagree 18 (by norm_num) (by norm_num) (by norm_num)]
    rw [if_pos hpos, if_neg (not_le.mpr hlt)]
    ring
  · simp only [cB,
      hagree 7 (by norm_num) (by norm_num) (by norm_num),
      hagree 8 (by norm_num) (by norm_num) (by norm_num),
      hagree 9 (by norm_num) (by norm_num) (by norm_num),
      hagree 10 (by norm_num) (by norm_num) (by norm_num),
      hagree 11 (by norm_num) (by norm_num) (by norm_num),
      hagree 12 (by norm_num) (by norm_num) (by norm_num),
      hagree 13 (by norm_num) (by norm_num) (by norm_num),
      hagree 14 (by norm_num) (by norm_num) (by norm_num),
      hagree 15 (by norm_num) (by norm_num) (by norm_num),
      hagree 17 (by norm_num) (by norm_num) (by norm_num),
      hagree 18 (by norm_num) (by norm_num) (by norm_num)]
    rw [if_pos hpos, if_neg (not_le.mpr hlt)]
    ring
  · simp only [cB,
      hagree 7 (by norm_num) (by norm_num) (by norm_num),
      hagree 8 (by norm_num) (by norm_num) (by norm_num),
      hagree 9 (by norm_num) (by norm_num) (by norm_num),
      hagree 10 (by norm_num) (by norm_num) (by norm_num),
      hagree 11 (by norm_num) (by norm_num) (by norm_num),
      hagree 12 (by norm_num) (by norm_num) (by norm_num),
      hagree 13 (by norm_num) (by norm_num) (by norm_num),
      hagree 14 (by norm_num) (by norm_num) (by norm_num),
      hagree 15 (by norm_num) (by norm_num) (by norm_num),
      hagree 16 (by norm_num) (by norm_num) (by norm_num),
      hagree 18 (by norm_num) (by norm_num) (by norm_num)]
    rw [if_pos hpos, if_neg (not_le.mpr hlt)]
    ring
  · simp only [cB,
      hagree 7 (by norm_num) (by norm_num) (by norm_num),
      hagree 8 (by norm_num) (by norm_num) (by norm_num),
      hagree 9 (by norm_num) (by norm_num) (by norm_num),
      hagree 10 (by norm_num) (by norm_num) (by norm_num),
      hagree 11 (by norm_num) (by norm_num) (by norm_num),
      hagree 12 (by norm_num) (by norm_num) (by norm_num),
      hagree 13 (by norm_num) (by norm_num) (by norm_num),
      hagree 14 (by norm_num) (by norm_num) (by norm_num),
      hagree 15 (by norm_num) (by norm_num) (by norm_num),
      hagree 16 (by norm_num) (by norm_num) (by norm_num),
      hagree 17 (by norm_num) (by norm_num) (by norm_num)]
    rw [if_pos hpos, if_neg (not_le.mpr hlt)]

lemma roundHalfEven_intCast (n : ℤ) : roundHalfEven (n : ℚ) = n := by
  unfold roundHalfEven
  have hf : ((n : ℚ)).floor = n := by
    rw [show ((n : ℚ)).floor = ⌊(n : ℚ)⌋ from rfl, Int.floor_intCast]
  rw [hf]
  norm_num

lemma pyRound1_intCast (n : ℤ) : pyRound1 (n : ℚ) = (n : ℚ) := by
  unfold pyRound1
  have h : (10 : ℚ) * (n : ℚ) = ((10 * n : ℤ) : ℚ) := by push_cast; ring
  rw [h, roundHalfEven_intCast]
  push_cast
  ring

lemma score_pourcentage_eq (rep : ScoreReport) (n : ℤ)
    (h : (rep.score_total : ℚ) / (rep.score_max : ℚ) * 100 = (n : ℚ)) :
    score_pourcentage_of rep = n := by
  unfold score_pourcentage_of
  rw [h, pyRound1_intCast]

/-- C1: for every response set with all items 1-18 present and a
threshold configuration with at least 6 entries, the report exists and
its screening flag is true exactly when the Part A positive count is at
least 4; in particular it is true at exactly 4 positives and false at
exactly 3. -/
theorem claim_C1 (r : ℕ → Option ℤ) (cfg : Option (List ℤ))
    (hfull : ∀ i, 1 ≤ i → i ≤ 18 → (r i).isSome = true)
    (hlen : 6 ≤ (seuilsOf cfg).length) :
    ∃ rep, calculer_score_asrs r cfg = some rep ∧
      (rep.screening_positif = true ↔ 4 ≤ rep.items_positifs_a) ∧
      (rep.items_positifs_a = 4 → rep.screening_positif = true) ∧
      (rep.items_positifs_a = 3 → rep.screening_positif = false) := by
  refine ⟨_, calculer_eq r cfg hlen, by simp, ?_, ?_⟩
  · intro h
    simp only at h ⊢
    simp [h]
  · intro h
    simp only at h ⊢
    simp [h]

theorem claim_C1_witness :
    ∃ rep, calculer_score_asrs rAll4 none = some rep ∧
      (rep.screening_positif = true ↔ 4 ≤ rep.items_positifs_a) ∧
      (rep.items_positifs_a = 4 → rep.screening_positif = true) ∧
      (rep.items_positifs_a = 3 → rep.screening_positif = false) :=
  claim_C1 rAll4 none
    (fun i h1 h18 => by simp [rAll4, h1, h18]) (by decide)

/-- C2 counterexample: the response set missing item 7 (all other items
present with value 4) does not make the calculator fail: a full score
report is produced, with item 7 treated as 0. -/
theorem claim_C2_counterexample :
    calculer_score_asrs rMissing7 none =
      some { score_total := 68, score_max := 72, score_partie_a := 24,
             score_partie_b := 44, items_positifs_a := 6,
             items_positifs_b := 11, screening_positif := true } := by
  decide

/-- C2 (amended): the score calculator does not reject incomplete input:
for any response set with item 7 absent (and any threshold list with at
least 6 entries) it still produces a report, and the result is the same
as if item 7 had been answered 0. -/
theorem claim_C2_amended (r : ℕ → Option ℤ) (cfg : Option (List ℤ))
    (hlen : 6 ≤ (seuilsOf cfg).length) (h7 : r 7 = none) :
    ∃ rep, calculer_score_asrs r cfg = some rep ∧
      calculer_score_asrs r cfg =
        calculer_score_asrs (fun i => if i = 7 then some 0 else r i) cfg := by
  refine ⟨_, calculer_eq r cfg hlen, ?_⟩
  have hv : ∀ j, v (fun i => if i = 7 then some 0 else r i) j = v r j := by
    intro j
    by_cases hj : j = 7
    · subst hj; simp [v, h7]
    · simp [v, hj]
  have e1 := sA_congr (fun i => if i = 7 then some 0 else r i) r
    (fun j _ _ => hv j)
  have e2 := sB_congr (fun i => if i = 7 then some 0 else r i) r
    (fun j _ _ => hv j)
  have e3 := cA_congr (fun i => if i = 7 then some 0 else r i) r (seuilsOf cfg)
    (fun j _ _ => hv j)
  have e4 := cB_congr (fun i => if i = 7 then some 0 else r i) r
    (fun j _ _ => hv j)
  rw [calculer_eq r cfg hlen, calculer_eq _ cfg hlen, e1, e2, e3, e4]

theorem claim_C2_witness :
    ∃ rep, calculer_score_asrs rMissing7 none = some rep ∧
      calculer_score_asrs rMissing7 none =
        calculer_score_asrs (fun i => if i = 7 then some 0 else rMissing7 i)
          none :=
  claim_C2_amended rMissing7 none (by decide) (by rfl)

/-- C3: for every response set whose 18 item values are present and in
the range 0-4, the total equals the Part A score plus the Part B score
and lies between 0 and 72. -/
theorem claim_C3 (r : ℕ → Option ℤ) (cfg : Option (List ℤ))
    (hlen : 6 ≤ (seuilsOf cfg).length)
    (hv : ∀ i, 1 ≤ i → i ≤ 18 → ∃ x, r i = some x ∧ 0 ≤ x ∧ x ≤ 4) :
    ∃ rep, calculer_score_asrs r cfg = some rep ∧
      rep.score_total = rep.score_partie_a + rep.score_partie_b ∧
      0 ≤ rep.score_total ∧ rep.score_total ≤ 72 := by
  have hb : ∀ i, 1 ≤ i → i ≤ 18 → 0 ≤ v r i ∧ v r i ≤ 4 := by
    intro i h1 h18
    obtain ⟨x, hx, hx0, hx4⟩ := hv i h1 h18
    simp [v, hx, hx0, hx4]
  have b1 := hb 1 (by norm_num) (by norm_num)
  have b2 := hb 2 (by norm_num) (by norm_num)
  have b3 := hb 3 (by norm_num) (by norm_num)
  have b4 := hb 4 (by norm_num) (by norm_num)
  have b5 := hb 5 (by norm_num) (by norm_num)
  have b6 := hb 6 (by norm_num) (by norm_num)
  have b7 := hb 7 (by norm_num) (by norm_num)
  have b8 := hb 8 (by norm_num) (by norm_num)
  have b9 := hb 9 (by norm_num) (by norm_num)
  have b10 := hb 10 (by norm_num) (by norm_num)
  have b11 := hb 11 (by norm_num) (by norm_num)
  have b12 := hb 12 (by norm_num) (by norm_num)
  have b13 := hb 13 (by norm_num) (by norm_num)
  have b14 := hb 14 (by norm_num) (by norm_num)
  have b15 := hb 15 (by norm_num) (by norm_num)
  have b16 := hb 16 (by norm_num) (by norm_num)
  have b17 := hb 17 (by norm_num) (by norm_num)
  have b18 := hb 18 (by norm_num) (by norm_num)
  refine ⟨_, calculer_eq r cfg hlen, rfl, ?_, ?_⟩
  · simp only [sA, sB]
    omega
  · simp only [sA, sB]
    omega

theorem claim_C3_witness :
    ∃ rep, calculer_score_asrs rAll4 none = some rep ∧
      rep.score_total = rep.score_partie_a + rep.score_partie_b ∧
      0 ≤ rep.score_total ∧ rep.score_total ≤ 72 :=
  claim_C3 rAll4 none (by decide)
    (fun i h1 h18 => ⟨4, by simp [rAll4, h1, h18], by norm_num, by norm_num⟩)

/-- C8: the score calculator is deterministic: two calls on equal
responses and equal configurations return equal reports. -/
theorem claim_C8 (r1 r2 : ℕ → Option ℤ) (c1 c2 : Option (List ℤ))
    (hr : r1 = r2) (hc : c1 = c2) :
    calculer_score_asrs r1 c1 = calculer_score_asrs r2 c2 := by
  rw [hr, hc]

theorem claim_C8_witness :
    calculer_score_asrs rAll4 none = calculer_score_asrs rAll4 none :=
  claim_C8 rAll4 rAll4 none none rfl rfl

/-- C10 (implicit): the calculator is total over arbitrary response maps
whenever the threshold list has at least 6 entries: it returns a report,
the score_max field is the constant 72, and absent items behave exactly
as the value 0. -/
theorem claim_C10 (r : ℕ → Option ℤ) (cfg : Option (List ℤ))
    (hlen : 6 ≤ (seuilsOf cfg).length) :
    ∃ rep, calculer_score_asrs r cfg = some rep ∧ rep.score_max = 72 ∧
      calculer_score_asrs r cfg =
        calculer_score_asrs (fun i => some ((r i).getD 0)) cfg := by
  refine ⟨_, calculer_eq r cfg hlen, rfl, rfl⟩

theorem claim_C10_witness :
    ∃ rep, calculer_score_asrs rMissing7 none = some rep ∧
      rep.score_max = 72 ∧
      calculer_score_asrs rMissing7 none =
        calculer_score_asrs (fun i => some ((rMissing7 i).getD 0)) none :=
  claim_C10 rMissing7 none (by decide)

/-- C4: thresholds are inclusive on both parts.  If two response sets
agree everywhere except item `i`, where one holds exactly the item
threshold (the configured one for items 1-6, the fixed 3 for items 7-18)
and the other holds a value strictly below it, then the first report
counts one more positive than the second in the corresponding part, and
the other part is unchanged. -/
theorem claim_C4 (r r2 : ℕ → Option ℤ) (cfg : Option (List ℤ))
    (hlen : 6 ≤ (seuilsOf cfg).length) (i : ℕ) (h1 : 1 ≤ i) (h18 : i ≤ 18)
    (hexact : v r i = seuil_item cfg i)
    (hbelow : v r2 i < seuil_item cfg i)
    (hagree : ∀ j, j ≠ i → v r j = v r2 j) :
    ∃ rep rep2, calculer_score_asrs r cfg = some rep ∧
      calculer_score_asrs r2 cfg = some rep2 ∧
      (i ≤ 6 → rep.items_positifs_a = rep2.items_positifs_a + 1 ∧
        rep.items_positifs_b = rep2.items_positifs_b) ∧
      (7 ≤ i → rep.items_positifs_b = rep2.items_positifs_b + 1 ∧
        rep.items_positifs_a = rep2.items_positifs_a) := by
  refine ⟨_, _, calculer_eq r cfg hlen, calculer_eq r2 cfg hlen, ?_, ?_⟩
  · intro hi6
    have hs : seuil_item cfg i = (seuilsOf cfg).getD (i - 1) 0 := by
      simp [seuil_item, hi6]
    constructor
    · exact cA_succ_of_at_threshold r r2 (seuilsOf cfg) i h1 hi6
        (fun j _ _ hne => hagree j hne)
        ((hexact.trans hs).ge) (hs ▸ hbelow)
    · exact cB_congr r r2 (fun j hj7 _ => hagree j (by omega))
  · intro hi7
    have hs : seuil_item cfg i = 3 := by
      have : ¬ i ≤ 6 := by omega
      simp [seuil_item, this]
    constructor
    · exact cB_succ_of_at_threshold r r2 i hi7 h18
        (fun j _ _ hne => hagree j hne)
        ((hexact.trans hs).ge) (hs ▸ hbelow)
    · exact cA_congr r r2 (seuilsOf cfg) (fun j _ hj6 => hagree j (by omega))

/-- Response set with item 1 answered exactly at its default threshold 2
and all other items 1-18 answered 4. -/
def rAtThr : ℕ → Option ℤ :=
  fun j => if j = 1 then some 2 else if 1 ≤ j ∧ j ≤ 18 then some 4 else none

/-- Response set with item 1 answered strictly below its default
threshold and all other items 1-18 answered 4. -/
def rBelowThr : ℕ → Option ℤ :=
  fun j => if j = 1 then some 1 else if 1 ≤ j ∧ j ≤ 18 then some 4 else none

theorem claim_C4_witness :
    ∃ rep rep2, calculer_score_asrs rAtThr none = some rep ∧
      calculer_score_asrs rBelowThr none = some rep2 ∧
      ((1 : ℕ) ≤ 6 → rep.items_positifs_a = rep2.items_positifs_a + 1 ∧
        rep.items_positifs_b = rep2.items_positifs_b) ∧
      ((7 : ℕ) ≤ 1 → rep.items_positifs_b = rep2.items_positifs_b + 1 ∧
        rep.items_positifs_a = rep2.items_positifs_a) :=
  claim_C4 rAtThr rBelowThr none (by decide) 1 (by decide) (by decide)
    (by decide) (by decide)
    (fun j hj => by simp [v, rAtThr, rBelowThr, hj])

/-- C5: with no configured threshold list the calculator behaves exactly
as with the explicit default list [2, 3, 2, 2, 3, 3]; with a configured
list of at least 6 entries, the configured values are the ones used for
the Part A positive count. -/
theorem claim_C5 (r : ℕ → Option ℤ) (l : List ℤ) (hl : 6 ≤ l.length) :
    calculer_score_asrs r none =
      calculer_score_asrs r (some [2, 3, 2, 2, 3, 3]) ∧
    (∃ rep, calculer_score_asrs r (some l) = some rep ∧
      rep.items_positifs_a = cA r l) ∧
    (∃ repd, calculer_score_asrs r none = some repd ∧
      repd.items_positifs_a = cA r [2, 3, 2, 2, 3, 3]) := by
  refine ⟨rfl, ⟨_, calculer_eq r (some l) hl, rfl⟩,
    ⟨_, calculer_eq r none (by decide), rfl⟩⟩

theorem claim_C5_witness :
    calculer_score_asrs rAll4 none =
      calculer_score_asrs rAll4 (some [2, 3, 2, 2, 3, 3]) ∧
    (∃ rep, calculer_score_asrs rAll4 (some [4, 4, 4, 4, 4, 4]) = some rep ∧
      rep.items_positifs_a = cA rAll4 [4, 4, 4, 4, 4, 4]) ∧
    (∃ repd, calculer_score_asrs rAll4 none = some repd ∧
      repd.items_positifs_a = cA rAll4 [2, 3, 2, 2, 3, 3]) :=
  claim_C5 rAll4 [4, 4, 4, 4, 4, 4] (by decide)

/-- C6: with all 18 items answered 4 and the default thresholds the
report is partA 24, partB 48, total 72, 6 and 12 positive items,
screening positive, and the derived percentage is 100; with all items
answered 0 the total is 0, the screening is negative and the percentage
is 0. -/
theorem claim_C6 :
    (calculer_score_asrs rAll4 none =
      some { score_total := 72, score_max := 72, score_partie_a := 24,
             score_partie_b := 48, items_positifs_a := 6,
             items_positifs_b := 12, screening_positif := true }) ∧
    (calculer_score_asrs rAll4 none).map score_pourcentage_of = some 100 ∧
    (calculer_score_asrs rAll0 none =
      some { score_total := 0, score_max := 72, score_partie_a := 0,
             score_partie_b := 0, items_positifs_a := 0,
             items_positifs_b := 0, screening_positif := false }) ∧
    (calculer_score_asrs rAll0 none).map score_pourcentage_of = some 0 := by
  have e4 : calculer_score_asrs rAll4 none =
      some { score_total := 72, score_max := 72, score_partie_a := 24,
             score_partie_b := 48, items_positifs_a := 6,
             items_positifs_b := 12, screening_positif := true } := by decide
  have e0 : calculer_score_asrs rAll0 none =
      some { score_total := 0, score_max := 72, score_partie_a := 0,
             score_partie_b := 0, items_positifs_a := 0,
             items_positifs_b := 0, screening_positif := false } := by decide
  refine ⟨e4, ?_, e0, ?_⟩
  · rw [e4, Option.map_some']
    have h := score_pourcentage_eq
      { score_total := 72, score_max := 72, score_partie_a := 24,
        score_partie_b := 48, items_positifs_a := 6, items_positifs_b := 12,
        screening_positif := true } 100 (by norm_num)
    rw [h]
    norm_num
  · rw [e0, Option.map_some']
    have h := score_pourcentage_eq
      { score_total := 0, score_max := 72, score_partie_a := 0,
        score_partie_b := 0, items_positifs_a := 0, items_positifs_b := 0,
        screening_positif := false } 0 (by norm_num)
    rw [h]
    norm_num

/-- C7: persistence failure is isolated.  Whatever the store outcome
(no store, success or failure), the submission still returns the record
whose score fields are exactly those of the computed report, the outcome
is reported separately, and the record does not depend on the outcome. -/
theorem claim_C7 (ts qt em ge : String) (age : ℤ) (r : ℕ → Option ℤ)
    (cfg : Option (List ℤ)) (store : Option Bool)
    (hlen : 6 ≤ (seuilsOf cfg).length) :
    ∃ scores rec, calculer_score_asrs r cfg = some scores ∧
      show_questionnaire_submit ts qt em ge age r cfg store =
        some (rec, store) ∧
      rec.score_total = scores.score_total ∧
      rec.score_max = scores.score_max ∧
      rec.score_partie_a = scores.score_partie_a ∧
      rec.score_partie_b = scores.score_partie_b ∧
      rec.items_positifs_a = scores.items_positifs_a ∧
      rec.items_positifs_b = scores.items_positifs_b ∧
      rec.screening_positif = scores.screening_positif ∧
      rec.score_pourcentage = score_pourcentage_of scores ∧
      ∀ store2 : Option Bool,
        show_questionnaire_submit ts qt em ge age r cfg store2 =
          some (rec, store2) := by
  obtain ⟨rep, hrep⟩ : ∃ rep, calculer_score_asrs r cfg = some rep :=
    ⟨_, calculer_eq r cfg hlen⟩
  refine ⟨rep,
    ⟨ts, qt, em, age, ge, rep.score_total, rep.score_max, rep.score_partie_a,
      rep.score_partie_b, rep.items_positifs_a, rep.items_positifs_b,
      rep.screening_positif, score_pourcentage_of rep⟩,
    hrep, ?_, rfl, rfl, rfl, rfl, rfl, rfl, rfl, rfl, ?_⟩
  · simp [show_questionnaire_submit, hrep]
  · intro store2
    simp [show_questionnaire_submit, hrep]

/-- Sample timestamp used by the persistence witness. -/
def tsEx : String := "2025-01-01"

/-- Sample questionnaire variant tag used by the persistence witness. -/
def qtEx : String := "pre"

/-- Sample respondent email used by the persistence witness. -/
def emEx : String := "ada@example.org"

/-- Sample respondent gender used by the persistence witness. -/
def geEx : String := "F"

theorem claim_C7_witness :
    ∃ scores rec, calculer_score_asrs rAll4 none = some scores ∧
      show_questionnaire_submit tsEx qtEx emEx geEx 30 rAll4 none
          (some false) = some (rec, some false) ∧
      rec.score_total = scores.score_total ∧
      rec.score_max = scores.score_max ∧
      rec.score_partie_a = scores.score_partie_a ∧
      rec.score_partie_b = scores.score_partie_b ∧
      rec.items_positifs_a = scores.items_positifs_a ∧
      rec.items_positifs_b = scores.items_positifs_b ∧
      rec.screening_positif = scores.screening_positif ∧
      rec.score_pourcentage = score_pourcentage_of scores ∧
      ∀ store2 : Option Bool,
        show_questionnaire_submit tsEx qtEx emEx geEx 30 rAll4 none store2 =
          some (rec, store2) :=
  claim_C7 tsEx qtEx emEx geEx 30 rAll4 none (some false) (by decide)

/-- C9: the banding read off the displayed interpretation table is total
over 0-72 and its four bands are inclusive, contiguous and mutually
exclusive: 0-18 occasional, 19-36 moderate, 37-54 significant, 55-72
very marked. -/
theorem claim_C9 (t : ℤ) (h0 : 0 ≤ t) (h72 : t ≤ 72) :
    (bande t).isSome = true ∧
    (bande t = some Bande.occasionnelles ↔ 0 ≤ t ∧ t ≤ 18) ∧
    (bande t = some Bande.moderees ↔ 19 ≤ t ∧ t ≤ 36) ∧
    (bande t = some Bande.importantes ↔ 37 ≤ t ∧ t ≤ 54) ∧
    (bande t = some Bande.marquees ↔ 55 ≤ t ∧ t ≤ 72) := by
  unfold bande
  split_ifs with hc1 hc2 hc3 hc4
  · refine ⟨by simp, ?_, ?_, ?_, ?_⟩ <;> simp <;> omega
  · refine ⟨by simp, ?_, ?_, ?_, ?_⟩ <;> simp <;> omega
  · refine ⟨by simp, ?_, ?_, ?_, ?_⟩ <;> simp <;> omega
  · refine ⟨by simp, ?_, ?_, ?_, ?_⟩ <;> simp <;> omega
  · exfalso; omega

theorem claim_C9_witness :
    (bande 19).isSome = true ∧
    (bande 19 = some Bande.occasionnelles ↔ (0 : ℤ) ≤ 19 ∧ (19 : ℤ) ≤ 18) ∧
    (bande 19 = some Bande.moderees ↔ (19 : ℤ) ≤ 19 ∧ (19 : ℤ) ≤ 36) ∧
    (bande 19 = some Bande.importantes ↔ (37 : ℤ) ≤ 19 ∧ (19 : ℤ) ≤ 54) ∧
    (bande 19 = some Bande.marquees ↔ (55 : ℤ) ≤ 19 ∧ (19 : ℤ) ≤ 72) :=
  claim_C9 19 (by decide) (by decide)

end Asrs
